import Mathlib

/-!
# Verification of the order-processing backend

Shallow embedding of the e-commerce order-processing modules
(`api/express_checkout.py`, `api/order_status.py`, `api/discount.py`,
`utils/refund_calculator.py`, `services/status_notifier.py`) and proofs of
the specification claims about them.

Monetary values are embedded as exact rationals (`ℚ`); Python's
`round(x, 2)` is embedded as round-half-to-even at two decimal places.
Collaborator services (database, inventory, notification) are embedded as
explicit environments of oracle functions returning `Except`, and each
operation additionally returns the list of observable side effects it
performed, in order.
-/

/-- Round-half-to-even to the nearest integer, the idealisation of
Python's built-in `round` on exact values. -/
def roundHalfEven (x : ℚ) : ℤ :=
  if x - Int.floor x < 1/2 then Int.floor x
  else if 1/2 < x - Int.floor x then Int.floor x + 1
  else if Int.floor x % 2 = 0 then Int.floor x else Int.floor x + 1

/-- Python `round(x, 2)`: round to two decimal places, half to even. -/
def round2 (x : ℚ) : ℚ :=
  (roundHalfEven (x * 100) : ℚ) / 100

/-- Modelled from the spec: `config/settings.py` is not in the sources; the
spec's refund example uses a tax rate of 0.08 ("items [{unit_price:50,
quantity:2}] with tax rate 0.08 → subtotal=100, tax_credit=8.00,
refund=108.00"). -/
def TAX_RATE : ℚ := 8/100

/-! ## Refund calculator (`utils/refund_calculator.py`) -/

/-- One entry of the item list passed to `RefundCalculator.calculate_refund`:
the fields the function reads (`unit_price`, `quantity`). -/
structure RefundItem where
  unit_price : ℚ
  quantity : ℕ
deriving DecidableEq, Repr

/-- The line total `item.get("unit_price", 0.0) * item.get("quantity", 1)`. -/
def lineTotal (it : RefundItem) : ℚ :=
  it.unit_price * it.quantity

/-- Embeds `RefundCalculator.calculate_refund`: empty list returns `0.0`; otherwise
sum the line totals (unrounded), compute the rounded tax credit from the
unrounded sum, and round the final total. -/
def calculate_refund (items : List RefundItem) : ℚ :=
  if items.isEmpty then 0
  else
    let subtotal := (items.map lineTotal).sum
    let tax_credit := round2 (subtotal * TAX_RATE)
    round2 (subtotal + tax_credit)

/-- The refund computation as the spec words it ("round(subtotal),
round(subtotal*rate) for tax, round(subtotal+tax) for total"): the summed
subtotal is rounded to two decimals BEFORE the tax credit is computed from
it. Written for comparison with `calculate_refund`, which is the source's
version. -/
def calculate_refund_roundedSubtotal (items : List RefundItem) : ℚ :=
  if items.isEmpty then 0
  else
    let subtotal := round2 ((items.map lineTotal).sum)
    let tax_credit := round2 (subtotal * TAX_RATE)
    round2 (subtotal + tax_credit)

/-! ## Bulk discount (`api/discount.py`, `apply_bulk_discount`) -/

/-- The tier selection of `apply_bulk_discount`:
`if quantity >= 50: 15.0 elif quantity >= 20: 10.0 elif quantity >= 10: 5.0
else 0.0`. -/
def bulkDiscountPct (quantity : ℕ) : ℚ :=
  if quantity ≥ 50 then 15
  else if quantity ≥ 20 then 10
  else if quantity ≥ 10 then 5
  else 0

/-- The result record returned by `apply_bulk_discount` (monetary and
quantity fields). -/
structure BulkQuote where
  quantity : ℕ
  base_price : ℚ
  discount_percent : ℚ
  unit_price : ℚ
  subtotal : ℚ
  tax : ℚ
  total : ℚ
deriving DecidableEq, Repr

/-- Embeds `apply_bulk_discount` from `api/discount.py`. The user lookup, product
lookup and stock check are calls into collaborators outside the sources
(`utils/database.py`, `models/product.py`); their outcomes are passed in as
booleans. The pricing arithmetic is the source's:
`unit_price = round(base_price * (1 - discount_pct / 100), 2)`,
`subtotal = round(unit_price * quantity, 2)`,
`tax = round(subtotal * TAX_RATE, 2)`, `total = round(subtotal + tax, 2)`. -/
def apply_bulk_discount (userFound productFound inStock : Bool)
    (base_price : ℚ) (quantity : ℕ) : Except String BulkQuote :=
  if !userFound then .error "User not found"
  else if !productFound then .error "Product not found"
  else if !inStock then .error "Product is out of stock"
  else
    let discount_pct := bulkDiscountPct quantity
    let unit_price := round2 (base_price * (1 - discount_pct / 100))
    let subtotal := round2 (unit_price * quantity)
    let tax := round2 (subtotal * TAX_RATE)
    let total := round2 (subtotal + tax)
    .ok ⟨quantity, base_price, discount_pct, unit_price, subtotal, tax, total⟩

/-! ## Order entity and status state machine

Modelled from the spec: `models/order.py` is not in the sources. Section 4.1
of the spec defines the states `PENDING → CONFIRMED → SHIPPED → DELIVERED`
with `CANCELLED` reachable from any non-terminal state, and the allowed set
of `update_status`: `PENDING/CONFIRMED → SHIPPED`, `SHIPPED → DELIVERED`,
`{PENDING, CONFIRMED, SHIPPED} → CANCELLED`. -/

inductive OrderStatus where
  | pending
  | confirmed
  | shipped
  | delivered
  | cancelled
deriving DecidableEq, Repr

/-- Modelled from the spec: the allowed-transition set of §4.1. -/
def allowedTransition : OrderStatus → OrderStatus → Bool
  | .pending, .shipped => true
  | .confirmed, .shipped => true
  | .shipped, .delivered => true
  | .pending, .cancelled => true
  | .confirmed, .cancelled => true
  | .shipped, .cancelled => true
  | _, _ => false

/-- A line item of an order: product identifier, display name, quantity,
unit price (`models/order.py`, `OrderItem`; fields as used by
`express_checkout` and the spec's §3). -/
structure OrderItem where
  product_id : String
  product_name : String
  quantity : ℕ
  unit_price : ℚ
deriving DecidableEq, Repr

/-- The order entity: identity, owner, line items, current status.
Modelled from the spec (§3): `models/order.py` is not in the sources. -/
structure Order where
  order_id : String
  user_id : String
  items : List OrderItem
  status : OrderStatus
deriving DecidableEq, Repr

/-- Derived subtotal (§3: recomputed from the items, rounded at each
computation step). -/
def Order.subtotal (o : Order) : ℚ :=
  round2 ((o.items.map (fun it => it.unit_price * (it.quantity : ℚ))).sum)

/-- Derived tax: `round(subtotal * rate, 2)` (§3). -/
def Order.tax (o : Order) : ℚ :=
  round2 (o.subtotal * TAX_RATE)

/-- Derived total: `round(subtotal + tax, 2)` (§3). -/
def Order.total (o : Order) : ℚ :=
  round2 (o.subtotal + o.tax)

/-- The data carried by the `InvalidTransition` error: current and
requested status (spec §4.1). -/
structure InvalidTransition where
  current : OrderStatus
  requested : OrderStatus
deriving DecidableEq, Repr

/-- Modelled from the spec: `Order.update_status` of `models/order.py`.
Succeeds and mutates only the status field when the transition is allowed;
fails with `InvalidTransition` (carrying current and requested status)
leaving the order unmodified otherwise. -/
def update_status (o : Order) (new : OrderStatus) :
    Except InvalidTransition Order :=
  if allowedTransition o.status new then .ok { o with status := new }
  else .error ⟨o.status, new⟩

/-- Modelled from the spec: `Order.can_cancel` reports whether CANCELLED is
currently reachable (true for PENDING, CONFIRMED, SHIPPED). -/
def can_cancel (o : Order) : Bool :=
  allowedTransition o.status .cancelled

/-! ## Lifecycle orchestrator (`api/order_status.py`)

Each operation is embedded as a function of the order and an environment
fixing the collaborator outcomes. It returns the updated in-memory order,
the list of collaborator calls performed (in order), and the outcome. -/

/-- Observable collaborator calls of the lifecycle operations and of the
discount module: persistence (`update_order_status`) and notification
dispatch (`send_notification`, reached through `StatusNotifier`). -/
inductive StatusEffect where
  | persist (order_id : String) (status : OrderStatus)
  | notify (notification_type : String) (order_id : String)
deriving DecidableEq, Repr

/-- Outcomes of a lifecycle operation: success; `OrderStatusError` raised
from a rejected transition (`except ValueError` branch); or an exception
propagated unwrapped (a persistence failure is not a `ValueError`). -/
inductive LifecycleOutcome (α : Type) where
  | ok (a : α)
  | statusError (e : InvalidTransition)
  | raised (msg : String)
deriving DecidableEq, Repr

/-- Collaborator outcomes for one lifecycle run: whether
`update_order_status` succeeds or raises, and whether the inner
`send_notification` succeeds (its failure is caught inside
`StatusNotifier`, which then returns `False`). -/
structure LifecycleEnv where
  persistResult : Except String Unit
  notifyOk : Bool

/-- Embeds `StatusNotifier.send_shipping_confirmation` from
`services/status_notifier.py`: attempt the notification dispatch; an
exception from `send_notification` is caught inside and `False` is
returned, a success returns `True`. Either way the dispatch was attempted
(first component) and no exception escapes. -/
def send_shipping_confirmation (notifyOk : Bool) (o : Order) :
    List StatusEffect × Bool :=
  ([.notify "shipping_update" o.order_id], notifyOk)

/-- Embeds `StatusNotifier.send_delivery_confirmation`: same catch-all contract. -/
def send_delivery_confirmation (notifyOk : Bool) (o : Order) :
    List StatusEffect × Bool :=
  ([.notify "order_confirmation" o.order_id], notifyOk)

/-- Embeds `StatusNotifier.send_cancellation_notice`: same catch-all contract. -/
def send_cancellation_notice (notifyOk : Bool) (o : Order) :
    List StatusEffect × Bool :=
  ([.notify "order_confirmation" o.order_id], notifyOk)

/-- The success record of `mark_as_shipped` (`shipped_at` timestamp not
modelled). -/
structure ShipResult where
  order_id : String
  status : OrderStatus
  tracking_number : String
  carrier : String
deriving DecidableEq, Repr

/-- Embeds `mark_as_shipped` from `api/order_status.py`: transition to SHIPPED,
persist, notify (best-effort), return the success record; on a rejected
transition raise `OrderStatusError` with no persistence or notification. -/
def mark_as_shipped (env : LifecycleEnv) (o : Order)
    (tracking_number carrier : String) :
    Order × List StatusEffect × LifecycleOutcome ShipResult :=
  match update_status o .shipped with
  | .error e => (o, [], .statusError e)
  | .ok o2 =>
    match env.persistResult with
    | .error m => (o2, [.persist o2.order_id .shipped], .raised m)
    | .ok _ =>
        (o2,
         .persist o2.order_id .shipped ::
           (send_shipping_confirmation env.notifyOk o2).1,
         .ok ⟨o2.order_id, .shipped, tracking_number, carrier⟩)

/-- The success record of `mark_as_delivered` (`delivered_at` timestamp not
modelled). -/
structure DeliverResult where
  order_id : String
  status : OrderStatus
deriving DecidableEq, Repr

/-- Embeds `mark_as_delivered` from `api/order_status.py`. -/
def mark_as_delivered (env : LifecycleEnv) (o : Order) :
    Order × List StatusEffect × LifecycleOutcome DeliverResult :=
  match update_status o .delivered with
  | .error e => (o, [], .statusError e)
  | .ok o2 =>
    match env.persistResult with
    | .error m => (o2, [.persist o2.order_id .delivered], .raised m)
    | .ok _ =>
        (o2,
         .persist o2.order_id .delivered ::
           (send_delivery_confirmation env.notifyOk o2).1,
         .ok ⟨o2.order_id, .delivered⟩)

/-- The success record of `cancel_order` (`cancelled_at` timestamp not
modelled). -/
structure CancelResult where
  order_id : String
  status : OrderStatus
  reason : String
deriving DecidableEq, Repr

/-- Embeds `cancel_order` from `api/order_status.py`. -/
def cancel_order (env : LifecycleEnv) (o : Order) (_user_id reason : String) :
    Order × List StatusEffect × LifecycleOutcome CancelResult :=
  match update_status o .cancelled with
  | .error e => (o, [], .statusError e)
  | .ok o2 =>
    match env.persistResult with
    | .error m => (o2, [.persist o2.order_id .cancelled], .raised m)
    | .ok _ =>
        (o2,
         .persist o2.order_id .cancelled ::
           (send_cancellation_notice env.notifyOk o2).1,
         .ok ⟨o2.order_id, .cancelled, reason⟩)

/-! ## Discount codes applied to an order (`api/discount.py`,
`apply_discount_to_order`) -/

/-- The module-level `DISCOUNT_CODES` table: for each code its type
(`true` = percentage, `false` = flat), value and minimum order subtotal. -/
def DISCOUNT_CODES : String → Option (Bool × ℚ × ℚ)
  | "SAVE10" => some (true, 10, 50)
  | "FLAT20" => some (false, 20, 100)
  | "BULK5" => some (true, 5, 200)
  | _ => none

/-- The result record of `apply_discount_to_order`. -/
structure DiscountResult where
  order_id : String
  discount_code : String
  discount_amount : ℚ
  original_total : ℚ
  new_subtotal : ℚ
  new_tax : ℚ
  new_total : ℚ
deriving DecidableEq, Repr

/-- Embeds `apply_discount_to_order` from `api/discount.py`. `MIN_ORDER_AMOUNT`
comes from the excluded `config/settings.py` and is passed in as a
parameter. The function validates the code, checks the order is in a
modifiable state, recomputes the discounted totals, and returns a result
record; it performs no persistence call and returns the order unchanged. -/
def apply_discount_to_order (minOrderAmount : ℚ) (o : Order)
    (discount_code : String) :
    Order × List StatusEffect × Except String DiscountResult :=
  match DISCOUNT_CODES discount_code.toUpper with
  | none => (o, [], .error ("Invalid discount code: " ++ discount_code))
  | some (isPercentage, value, min_order) =>
    if ¬ can_cancel o then
      (o, [], .error "Discount cannot be applied to orders in this status")
    else if o.subtotal < min_order then
      (o, [], .error "Order subtotal is below minimum required for code")
    else
      let discount_amount :=
        if isPercentage then round2 (o.subtotal * (value / 100))
        else min value o.subtotal
      let new_subtotal := round2 (o.subtotal - discount_amount)
      let new_tax := round2 (new_subtotal * TAX_RATE)
      let new_total := round2 (new_subtotal + new_tax)
      if new_total < minOrderAmount then
        (o, [], .error "Discounted total falls below the minimum order amount")
      else
        (o, [],
         .ok ⟨o.order_id, discount_code, discount_amount, o.total,
              new_subtotal, new_tax, new_total⟩)

/-! ## Express checkout (`api/express_checkout.py`)

The collaborators (`get_product_by_id`, `reserve_stock`, the Order
constructor's business validation, `save_order`, `confirm_reservation`,
`release_stock`) are embedded as an environment of oracles; lookups and
reservations are keyed by the position of the cart item in the request.
`express_checkout` returns the list of observable collaborator effects, in
the order performed, together with its result. -/

/-- One entry of the request's item list: the fields read by
`express_checkout` (`product_id`, `quantity`). -/
structure CartItem where
  product_id : String
  quantity : ℕ
deriving DecidableEq, Repr

/-- The product record fields read by `express_checkout` (`name`,
`price`). -/
structure ProductInfo where
  name : String
  price : ℚ
deriving DecidableEq, Repr

/-- Outcomes of the collaborator calls of one checkout run. `lookup i` is
the outcome of `get_product_by_id` for the i-th cart item (`.ok none` =
product not found); `reserve i` is the reservation id returned by
`reserve_stock` for the i-th item, or its exception; `orderCheck` is the
Order constructor's business validation (Modelled from the spec:
`models/order.py` is not in the sources; §4.3 step 4 has it raise on a
business-rule violation); `save` is `save_order`; `confirm rid` is
`confirm_reservation`. -/
structure CheckoutEnv where
  lookup : ℕ → Except String (Option ProductInfo)
  reserve : ℕ → Except String String
  orderCheck : List OrderItem → Except String Unit
  save : Except String String
  confirm : String → Except String Unit

/-- Observable collaborator effects of a checkout run. A `reserve` effect
is recorded when `reserve_stock` succeeds and carries the returned
reservation id; `save` carries the product records passed to `save_order`;
`confirm` is recorded when `confirm_reservation` succeeds; `release` is
recorded for every `release_stock` attempt, whether it fails or not. -/
inductive CkEffect where
  | lookup (idx : ℕ) (product_id : String)
  | reserve (idx : ℕ) (product_id : String) (quantity : ℕ)
      (reservation_id : String)
  | save (products : List OrderItem)
  | confirm (reservation_id : String)
  | release (reservation_id : String)
deriving DecidableEq, Repr

/-- The `for item_data in items_raw` loop of `express_checkout`: look the
product up (skip the item if absent), reserve stock, append the reservation
id to the accumulator, append the order item. Returns the trace, the
accumulated reservation ids and order items, and the first exception if one
was raised. -/
def runCartLoop (env : CheckoutEnv) :
    List CartItem → ℕ → List CkEffect → List String → List OrderItem →
    List CkEffect × List String × List OrderItem × Option String
  | [], _, tr, rs, ois => (tr, rs, ois, none)
  | it :: rest, idx, tr, rs, ois =>
    match env.lookup idx with
    | .error m => (tr ++ [.lookup idx it.product_id], rs, ois, some m)
    | .ok none =>
        runCartLoop env rest (idx + 1) (tr ++ [.lookup idx it.product_id])
          rs ois
    | .ok (some p) =>
      match env.reserve idx with
      | .error m => (tr ++ [.lookup idx it.product_id], rs, ois, some m)
      | .ok rid =>
          runCartLoop env rest (idx + 1)
            (tr ++ [.lookup idx it.product_id,
                    .reserve idx it.product_id it.quantity rid])
            (rs ++ [rid])
            (ois ++ [⟨it.product_id, p.name, it.quantity, p.price⟩])

/-- The `for res_id in reservations: await confirm_reservation(res_id)`
loop: confirm each reservation in order, stopping at the first exception. -/
def runConfirms (env : CheckoutEnv) :
    List String → List CkEffect → List CkEffect × Option String
  | [], tr => (tr, none)
  | rid :: rest, tr =>
    match env.confirm rid with
    | .error m => (tr, some m)
    | .ok _ => runConfirms env rest (tr ++ [.confirm rid])

/-- Embeds `_cleanup_reservations`: attempt `release_stock` for every accumulated
reservation id, in order; an exception from one release is caught and
logged and the loop continues with the rest. -/
def cleanup_reservations (release : String → Except String Bool) :
    List String → List CkEffect
  | [] => []
  | rid :: rest =>
    match release rid with
    | .error _ => .release rid :: cleanup_reservations release rest
    | .ok _ => .release rid :: cleanup_reservations release rest

/-- The success payload of `express_checkout` (`estimated_delivery` and the
transaction id are not modelled). -/
structure CheckoutSuccess where
  order_id : String
  total : ℚ
  tax : ℚ
  items_count : ℕ
deriving DecidableEq, Repr

/-- The result of `express_checkout`: the success dictionary, or the typed
`ExpressCheckoutError` raised to the caller. -/
inductive CheckoutResult where
  | ok (r : CheckoutSuccess)
  | checkoutError (msg : String)
deriving DecidableEq, Repr

/-- Embeds `express_checkout` from `api/express_checkout.py`: resolve the cart
items accumulating reservations, fail on an empty order-item list,
validate and construct the order, persist it, confirm every reservation;
on any exception release every accumulated reservation and raise the typed
`ExpressCheckoutError` (re-raised as-is for the "No valid items" error,
wrapping the cause otherwise). -/
def express_checkout (env : CheckoutEnv)
    (release : String → Except String Bool)
    (user_id : String) (cart : List CartItem) :
    List CkEffect × CheckoutResult :=
  match runCartLoop env cart 0 [] [] [] with
  | (tr, reservations, _, some m) =>
      (tr ++ cleanup_reservations release reservations,
       .checkoutError ("Checkout failed: " ++ m))
  | (tr, reservations, order_items, none) =>
    if order_items.isEmpty then
      (tr ++ cleanup_reservations release reservations,
       .checkoutError "No valid items in cart")
    else
      match env.orderCheck order_items with
      | .error m =>
          (tr ++ cleanup_reservations release reservations,
           .checkoutError ("Checkout failed: " ++ m))
      | .ok _ =>
        match env.save with
        | .error m =>
            (tr ++ cleanup_reservations release reservations,
             .checkoutError ("Checkout failed: " ++ m))
        | .ok order_id =>
          match runConfirms env reservations (tr ++ [.save order_items]) with
          | (tr2, some m) =>
              (tr2 ++ cleanup_reservations release reservations,
               .checkoutError ("Checkout failed: " ++ m))
          | (tr2, none) =>
              (tr2, .ok ⟨order_id,
                         (Order.mk "" user_id order_items .pending).total,
                         (Order.mk "" user_id order_items .pending).tax,
                         order_items.length⟩)

/-! ### Trace projections -/

/-- The reservation ids acquired in a trace, in acquisition order. -/
def reservedIds (tr : List CkEffect) : List String :=
  tr.filterMap (fun e =>
    match e with
    | .reserve _ _ _ rid => some rid
    | _ => none)

/-- The reservation ids for which a release was attempted, in order. -/
def releasedIds (tr : List CkEffect) : List String :=
  tr.filterMap (fun e =>
    match e with
    | .release rid => some rid
    | _ => none)

/-- The reservation ids successfully confirmed, in order. -/
def confirmedIds (tr : List CkEffect) : List String :=
  tr.filterMap (fun e =>
    match e with
    | .confirm rid => some rid
    | _ => none)

/-- The product lists passed to `save_order`, in order. -/
def savedProducts (tr : List CkEffect) : List (List OrderItem) :=
  tr.filterMap (fun e =>
    match e with
    | .save ps => some ps
    | _ => none)

/-- The cart positions for which a reservation was acquired, in order. -/
def reservedIdxs (tr : List CkEffect) : List ℕ :=
  tr.filterMap (fun e =>
    match e with
    | .reserve i _ _ _ => some i
    | _ => none)

/-! ### Environments for the success-path claims -/

/-- An environment in which every collaborator call succeeds: the i-th
lookup returns `prodOf i`, the i-th reservation returns id `ridOf i`,
validation passes, `save_order` returns `oid`, confirmations succeed. -/
def happyEnv (prodOf : ℕ → Option ProductInfo) (ridOf : ℕ → String)
    (oid : String) : CheckoutEnv :=
  ⟨fun i => .ok (prodOf i), fun i => .ok (ridOf i), fun _ => .ok (),
   .ok oid, fun _ => .ok ()⟩

/-- The order items built from the cart items that resolve to a product,
starting at position `idx`. -/
def resolvedItemsFrom (prodOf : ℕ → Option ProductInfo) :
    ℕ → List CartItem → List OrderItem
  | _, [] => []
  | idx, it :: rest =>
    match prodOf idx with
    | none => resolvedItemsFrom prodOf (idx + 1) rest
    | some p =>
        ⟨it.product_id, p.name, it.quantity, p.price⟩ ::
          resolvedItemsFrom prodOf (idx + 1) rest

/-- The cart positions that resolve to a product, starting at `idx`. -/
def resolvedIdxsFrom (prodOf : ℕ → Option ProductInfo) :
    ℕ → List CartItem → List ℕ
  | _, [] => []
  | idx, _ :: rest =>
    match prodOf idx with
    | none => resolvedIdxsFrom prodOf (idx + 1) rest
    | some _ => idx :: resolvedIdxsFrom prodOf (idx + 1) rest

/-! ### Concrete runs used as witnesses and counterexamples -/

/-- A three-item cart. -/
def cartW3 : List CartItem := [⟨"P1", 1⟩, ⟨"P2", 1⟩, ⟨"P3", 1⟩]

/-- Environment where all three items resolve and reserve (ids R1 R2 R3)
and order construction then fails its business validation. -/
def envC1 : CheckoutEnv :=
  ⟨fun _ => .ok (some ⟨"Widget", 5⟩),
   fun i => .ok (if i = 0 then "R1" else if i = 1 then "R2" else "R3"),
   fun _ => .error "order invalid",
   .ok "ORD-1",
   fun _ => .ok ()⟩

/-- Release oracle that fails for reservation R2. -/
def relC1 : String → Except String Bool :=
  fun rid => if rid = "R2" then .error "release failure" else .ok true

/-- The trace of the C1 run: three lookups and reservations, then the three
compensating releases. -/
def trC1 : List CkEffect :=
  [.lookup 0 "P1", .reserve 0 "P1" 1 "R1",
   .lookup 1 "P2", .reserve 1 "P2" 1 "R2",
   .lookup 2 "P3", .reserve 2 "P3" 1 "R3",
   .release "R1", .release "R2", .release "R3"]

/-- A two-item cart. -/
def cartW2 : List CartItem := [⟨"P1", 1⟩, ⟨"P2", 1⟩]

/-- Environment where both items resolve and reserve (ids R1 R2),
persistence succeeds, confirming R1 succeeds and confirming R2 raises. -/
def envC2 : CheckoutEnv :=
  ⟨fun _ => .ok (some ⟨"Widget", 5⟩),
   fun i => .ok (if i = 0 then "R1" else "R2"),
   fun _ => .ok (),
   .ok "ORD-2",
   fun rid => if rid = "R2" then .error "confirm failure" else .ok ()⟩

/-- Release oracle that always succeeds. -/
def relOk : String → Except String Bool := fun _ => .ok true

/-- Environment where no product lookup resolves. -/
def envC8 : CheckoutEnv :=
  ⟨fun _ => .ok none, fun _ => .ok "unused", fun _ => .ok (), .ok "ORD-8",
   fun _ => .ok ()⟩

/-- Product table under which cart position 0 is unresolvable and every
other position resolves. -/
def prodOfW : ℕ → Option ProductInfo :=
  fun i => if i = 0 then none else some ⟨"Widget", 5⟩

/-- Reservation ids for the all-successful run. -/
def ridOfW : ℕ → String := fun i => "RES-" ++ toString i

/-- A two-item cart whose first item does not resolve under `prodOfW`. -/
def cartW9 : List CartItem := [⟨"PA", 1⟩, ⟨"PB", 2⟩]

/-- A delivered order (terminal: every transition from it is illegal). -/
def ordDelivered : Order := ⟨"O3", "U3", [], .delivered⟩

/-- A pending order. -/
def ordPending : Order := ⟨"O4", "U4", [], .pending⟩

/-- Lifecycle environment in which persistence succeeds and the
notification dispatch fails. -/
def envNotifyFail : LifecycleEnv := ⟨.ok (), false⟩

/-! ### Evaluation lemmas for `round2` -/

theorem roundHalfEven_down (x : ℚ) (f : ℤ) (h1 : (f : ℚ) ≤ x)
    (h2 : x - f < 1/2) : roundHalfEven x = f := by
  have hf : Int.floor x = f := by
    rw [Int.floor_eq_iff]
    exact ⟨h1, by linarith⟩
  unfold roundHalfEven
  rw [hf, if_pos h2]

theorem roundHalfEven_up (x : ℚ) (f : ℤ) (h1 : (f : ℚ) ≤ x)
    (h2 : 1/2 < x - f) (h3 : x < f + 1) : roundHalfEven x = f + 1 := by
  have hf : Int.floor x = f := by
    rw [Int.floor_eq_iff]
    exact ⟨h1, h3⟩
  unfold roundHalfEven
  rw [hf, if_neg (by linarith), if_pos h2]

theorem roundHalfEven_half_even (x : ℚ) (f : ℤ) (h : x - f = 1/2)
    (he : f % 2 = 0) : roundHalfEven x = f := by
  have hf : Int.floor x = f := by
    rw [Int.floor_eq_iff]
    constructor
    · linarith
    · linarith
  have hlt : ¬ (x - (f : ℚ) < 1/2) := by rw [h]; exact lt_irrefl _
  have hgt : ¬ ((1 : ℚ)/2 < x - f) := by rw [h]; exact lt_irrefl _
  unfold roundHalfEven
  rw [hf, if_neg hlt, if_neg hgt, if_pos he]

theorem roundHalfEven_half_odd (x : ℚ) (f : ℤ) (h : x - f = 1/2)
    (ho : ¬ f % 2 = 0) : roundHalfEven x = f + 1 := by
  have hf : Int.floor x = f := by
    rw [Int.floor_eq_iff]
    constructor
    · linarith
    · linarith
  have hlt : ¬ (x - (f : ℚ) < 1/2) := by rw [h]; exact lt_irrefl _
  have hgt : ¬ ((1 : ℚ)/2 < x - f) := by rw [h]; exact lt_irrefl _
  unfold roundHalfEven
  rw [hf, if_neg hlt, if_neg hgt, if_neg ho]

theorem round2_down (x : ℚ) (f : ℤ) (h1 : (f : ℚ) ≤ x * 100)
    (h2 : x * 100 - f < 1/2) : round2 x = (f : ℚ) / 100 := by
  unfold round2
  rw [roundHalfEven_down (x * 100) f h1 h2]

theorem round2_up (x : ℚ) (f : ℤ) (h1 : (f : ℚ) ≤ x * 100)
    (h2 : 1/2 < x * 100 - f) (h3 : x * 100 < f + 1) :
    round2 x = ((f : ℚ) + 1) / 100 := by
  unfold round2
  rw [roundHalfEven_up (x * 100) f h1 h2 h3]
  push_cast
  ring

/-- A value that is exactly a whole number of cents rounds to itself. -/
theorem round2_self (x : ℚ) (f : ℤ) (h : x * 100 = (f : ℚ)) :
    round2 x = x := by
  unfold round2
  rw [roundHalfEven_down (x * 100) f (le_of_eq h.symm) (by rw [h]; norm_num)]
  field_simp [h.symm]

theorem round2_half_even (x : ℚ) (f : ℤ) (h : x * 100 - f = 1/2)
    (he : f % 2 = 0) : round2 x = (f : ℚ) / 100 := by
  unfold round2
  rw [roundHalfEven_half_even (x * 100) f h he]

theorem round2_half_odd (x : ℚ) (f : ℤ) (h : x * 100 - f = 1/2)
    (ho : ¬ f % 2 = 0) : round2 x = ((f : ℚ) + 1) / 100 := by
  unfold round2
  rw [roundHalfEven_half_odd (x * 100) f h ho]
  push_cast
  ring

/-! ### Trace lemmas for the checkout flow -/

theorem cleanup_eq_map (release : String → Except String Bool)
    (rs : List String) :
    cleanup_reservations release rs = rs.map CkEffect.release := by
  induction rs with
  | nil => rfl
  | cons rid rest ih =>
      unfold cleanup_reservations
      cases h : release rid <;> simp [ih]

@[simp] theorem releasedIds_append (a b : List CkEffect) :
    releasedIds (a ++ b) = releasedIds a ++ releasedIds b := by
  simp [releasedIds]

@[simp] theorem reservedIds_append (a b : List CkEffect) :
    reservedIds (a ++ b) = reservedIds a ++ reservedIds b := by
  simp [reservedIds]

@[simp] theorem confirmedIds_append (a b : List CkEffect) :
    confirmedIds (a ++ b) = confirmedIds a ++ confirmedIds b := by
  simp [confirmedIds]

@[simp] theorem savedProducts_append (a b : List CkEffect) :
    savedProducts (a ++ b) = savedProducts a ++ savedProducts b := by
  simp [savedProducts]

@[simp] theorem reservedIdxs_append (a b : List CkEffect) :
    reservedIdxs (a ++ b) = reservedIdxs a ++ reservedIdxs b := by
  simp [reservedIdxs]

@[simp] theorem reservedIds_nil : reservedIds [] = [] := rfl

@[simp] theorem releasedIds_nil : releasedIds [] = [] := rfl

@[simp] theorem confirmedIds_nil : confirmedIds [] = [] := rfl

@[simp] theorem savedProducts_nil : savedProducts [] = [] := rfl

@[simp] theorem reservedIdxs_nil : reservedIdxs [] = [] := rfl

@[simp] theorem reservedIds_cons_lookup (i : ℕ) (p : String) (tr : List CkEffect) :
    reservedIds (.lookup i p :: tr) = reservedIds tr := rfl

@[simp] theorem reservedIds_cons_reserve (i : ℕ) (p : String) (q : ℕ) (rid : String)
    (tr : List CkEffect) :
    reservedIds (.reserve i p q rid :: tr) = rid :: reservedIds tr := rfl

@[simp] theorem reservedIds_cons_save (ps : List OrderItem) (tr : List CkEffect) :
    reservedIds (.save ps :: tr) = reservedIds tr := rfl

@[simp] theorem reservedIds_cons_confirm (rid : String) (tr : List CkEffect) :
    reservedIds (.confirm rid :: tr) = reservedIds tr := rfl

@[simp] theorem reservedIds_cons_release (rid : String) (tr : List CkEffect) :
    reservedIds (.release rid :: tr) = reservedIds tr := rfl

@[simp] theorem releasedIds_cons_lookup (i : ℕ) (p : String) (tr : List CkEffect) :
    releasedIds (.lookup i p :: tr) = releasedIds tr := rfl

@[simp] theorem releasedIds_cons_reserve (i : ℕ) (p : String) (q : ℕ) (rid : String)
    (tr : List CkEffect) :
    releasedIds (.reserve i p q rid :: tr) = releasedIds tr := rfl

@[simp] theorem releasedIds_cons_save (ps : List OrderItem) (tr : List CkEffect) :
    releasedIds (.save ps :: tr) = releasedIds tr := rfl

@[simp] theorem releasedIds_cons_confirm (rid : String) (tr : List CkEffect) :
    releasedIds (.confirm rid :: tr) = releasedIds tr := rfl

@[simp] theorem releasedIds_cons_release (rid : String) (tr : List CkEffect) :
    releasedIds (.release rid :: tr) = rid :: releasedIds tr := rfl

@[simp] theorem confirmedIds_cons_lookup (i : ℕ) (p : String) (tr : List CkEffect) :
    confirmedIds (.lookup i p :: tr) = confirmedIds tr := rfl

@[simp] theorem confirmedIds_cons_reserve (i : ℕ) (p : String) (q : ℕ) (rid : String)
    (tr : List CkEffect) :
    confirmedIds (.reserve i p q rid :: tr) = confirmedIds tr := rfl

@[simp] theorem confirmedIds_cons_save (ps : List OrderItem) (tr : List CkEffect) :
    confirmedIds (.save ps :: tr) = confirmedIds tr := rfl

@[simp] theorem confirmedIds_cons_confirm (rid : String) (tr : List CkEffect) :
    confirmedIds (.confirm rid :: tr) = rid :: confirmedIds tr := rfl

@[simp] theorem confirmedIds_cons_release (rid : String) (tr : List CkEffect) :
    confirmedIds (.release rid :: tr) = confirmedIds tr := rfl

@[simp] theorem savedProducts_cons_lookup (i : ℕ) (p : String) (tr : List CkEffect) :
    savedProducts (.lookup i p :: tr) = savedProducts tr := rfl

@[simp] theorem savedProducts_cons_reserve (i : ℕ) (p : String) (q : ℕ)
    (rid : String) (tr : List CkEffect) :
    savedProducts (.reserve i p q rid :: tr) = savedProducts tr := rfl

@[simp] theorem savedProducts_cons_save (ps : List OrderItem) (tr : List CkEffect) :
    savedProducts (.save ps :: tr) = ps :: savedProducts tr := rfl

@[simp] theorem savedProducts_cons_confirm (rid : String) (tr : List CkEffect) :
    savedProducts (.confirm rid :: tr) = savedProducts tr := rfl

@[simp] theorem savedProducts_cons_release (rid : String) (tr : List CkEffect) :
    savedProducts (.release rid :: tr) = savedProducts tr := rfl

@[simp] theorem reservedIdxs_cons_lookup (i : ℕ) (p : String) (tr : List CkEffect) :
    reservedIdxs (.lookup i p :: tr) = reservedIdxs tr := rfl

@[simp] theorem reservedIdxs_cons_reserve (i : ℕ) (p : String) (q : ℕ) (rid : String)
    (tr : List CkEffect) :
    reservedIdxs (.reserve i p q rid :: tr) = i :: reservedIdxs tr := rfl

@[simp] theorem reservedIdxs_cons_save (ps : List OrderItem) (tr : List CkEffect) :
    reservedIdxs (.save ps :: tr) = reservedIdxs tr := rfl

@[simp] theorem reservedIdxs_cons_confirm (rid : String) (tr : List CkEffect) :
    reservedIdxs (.confirm rid :: tr) = reservedIdxs tr := rfl

@[simp] theorem reservedIdxs_cons_release (rid : String) (tr : List CkEffect) :
    reservedIdxs (.release rid :: tr) = reservedIdxs tr := rfl

@[simp] theorem releasedIds_map_release (rs : List String) :
    releasedIds (rs.map CkEffect.release) = rs := by
  induction rs with
  | nil => rfl
  | cons rid rest ih => simp [ih]

@[simp] theorem reservedIds_map_release (rs : List String) :
    reservedIds (rs.map CkEffect.release) = [] := by
  induction rs with
  | nil => rfl
  | cons rid rest ih => simp [ih]

@[simp] theorem confirmedIds_map_release (rs : List String) :
    confirmedIds (rs.map CkEffect.release) = [] := by
  induction rs with
  | nil => rfl
  | cons rid rest ih => simp [ih]

@[simp] theorem savedProducts_map_release (rs : List String) :
    savedProducts (rs.map CkEffect.release) = [] := by
  induction rs with
  | nil => rfl
  | cons rid rest ih => simp [ih]

@[simp] theorem reservedIdxs_map_release (rs : List String) :
    reservedIdxs (rs.map CkEffect.release) = [] := by
  induction rs with
  | nil => rfl
  | cons rid rest ih => simp [ih]

/-- The cart loop appends only `lookup` and `reserve` effects: no release
is attempted during accumulation. -/
theorem runCartLoop_releasedIds (env : CheckoutEnv) :
    ∀ (cart : List CartItem) (idx : ℕ) (tr : List CkEffect)
      (rs : List String) (ois : List OrderItem),
      releasedIds (runCartLoop env cart idx tr rs ois).1 = releasedIds tr := by
  intro cart
  induction cart with
  | nil => intro idx tr rs ois; rfl
  | cons it rest ih =>
      intro idx tr rs ois
      unfold runCartLoop
      cases hl : env.lookup idx with
      | error m => simp
      | ok po =>
        cases po with
        | none => rw [ih]; simp
        | some p =>
          cases hrv : env.reserve idx with
          | error m => simp
          | ok rid => rw [ih]; simp

/-- No confirmation happens during accumulation. -/
theorem runCartLoop_confirmedIds (env : CheckoutEnv) :
    ∀ (cart : List CartItem) (idx : ℕ) (tr : List CkEffect)
      (rs : List String) (ois : List OrderItem),
      confirmedIds (runCartLoop env cart idx tr rs ois).1 =
        confirmedIds tr := by
  intro cart
  induction cart with
  | nil => intro idx tr rs ois; rfl
  | cons it rest ih =>
      intro idx tr rs ois
      unfold runCartLoop
      cases hl : env.lookup idx with
      | error m => simp
      | ok po =>
        cases po with
        | none => rw [ih]; simp
        | some p =>
          cases hrv : env.reserve idx with
          | error m => simp
          | ok rid => rw [ih]; simp

/-- No persistence happens during accumulation. -/
theorem runCartLoop_savedProducts (env : CheckoutEnv) :
    ∀ (cart : List CartItem) (idx : ℕ) (tr : List CkEffect)
      (rs : List String) (ois : List OrderItem),
      savedProducts (runCartLoop env cart idx tr rs ois).1 =
        savedProducts tr := by
  intro cart
  induction cart with
  | nil => intro idx tr rs ois; rfl
  | cons it rest ih =>
      intro idx tr rs ois
      unfold runCartLoop
      cases hl : env.lookup idx with
      | error m => simp
      | ok po =>
        cases po with
        | none => rw [ih]; simp
        | some p =>
          cases hrv : env.reserve idx with
          | error m => simp
          | ok rid => rw [ih]; simp

/-- The reservation-id accumulator mirrors the `reserve` effects of the
trace: the returned accumulator equals the reserve effects of the returned
trace, provided that held of the inputs. -/
theorem runCartLoop_reservedIds (env : CheckoutEnv) :
    ∀ (cart : List CartItem) (idx : ℕ) (tr : List CkEffect)
      (rs : List String) (ois : List OrderItem),
      reservedIds tr = rs →
      reservedIds (runCartLoop env cart idx tr rs ois).1 =
        (runCartLoop env cart idx tr rs ois).2.1 := by
  intro cart
  induction cart with
  | nil => intro idx tr rs ois h; exact h
  | cons it rest ih =>
      intro idx tr rs ois h
      unfold runCartLoop
      cases hl : env.lookup idx with
      | error m => simp [h]
      | ok po =>
        cases po with
        | none => apply ih; simp [h]
        | some p =>
          cases hrv : env.reserve idx with
          | error m => simp [h]
          | ok rid => apply ih; simp [h]

/-- The confirmation loop attempts no release and no reservation. -/
theorem runConfirms_releasedIds (env : CheckoutEnv) :
    ∀ (rs : List String) (tr : List CkEffect),
      releasedIds (runConfirms env rs tr).1 = releasedIds tr := by
  intro rs
  induction rs with
  | nil => intro tr; rfl
  | cons rid rest ih =>
      intro tr
      unfold runConfirms
      cases hc : env.confirm rid with
      | error m => rfl
      | ok u => rw [ih]; simp

theorem runConfirms_reservedIds (env : CheckoutEnv) :
    ∀ (rs : List String) (tr : List CkEffect),
      reservedIds (runConfirms env rs tr).1 = reservedIds tr := by
  intro rs
  induction rs with
  | nil => intro tr; rfl
  | cons rid rest ih =>
      intro tr
      unfold runConfirms
      cases hc : env.confirm rid with
      | error m => rfl
      | ok u => rw [ih]; simp

theorem runConfirms_savedProducts (env : CheckoutEnv) :
    ∀ (rs : List String) (tr : List CkEffect),
      savedProducts (runConfirms env rs tr).1 = savedProducts tr := by
  intro rs
  induction rs with
  | nil => intro tr; rfl
  | cons rid rest ih =>
      intro tr
      unfold runConfirms
      cases hc : env.confirm rid with
      | error m => rfl
      | ok u => rw [ih]; simp

/-- The confirmation loop confirms a prefix of the reservation list, in
order. -/
theorem runConfirms_confirm_prefix (env : CheckoutEnv) :
    ∀ (rs : List String) (tr : List CkEffect),
      ∃ n, confirmedIds (runConfirms env rs tr).1 =
        confirmedIds tr ++ rs.take n := by
  intro rs
  induction rs with
  | nil => intro tr; exact ⟨0, by simp [runConfirms]⟩
  | cons rid rest ih =>
      intro tr
      unfold runConfirms
      cases hc : env.confirm rid with
      | error m => exact ⟨0, by simp⟩
      | ok u =>
          obtain ⟨n, hn⟩ := ih (tr ++ [.confirm rid])
          exact ⟨n + 1, by simp [hn]⟩

/-- If the confirmation loop completes without an exception, every
reservation in the list was confirmed, in order. -/
theorem runConfirms_none_confirmedIds (env : CheckoutEnv) :
    ∀ (rs : List String) (tr tr2 : List CkEffect),
      runConfirms env rs tr = (tr2, none) →
      confirmedIds tr2 = confirmedIds tr ++ rs := by
  intro rs
  induction rs with
  | nil =>
      intro tr tr2 h
      simp [runConfirms] at h
      rw [← h]
      simp
  | cons rid rest ih =>
      intro tr tr2 h
      unfold runConfirms at h
      cases hc : env.confirm rid with
      | error m => rw [hc] at h; simp at h
      | ok u =>
          rw [hc] at h
          have := ih (tr ++ [.confirm rid]) tr2 h
          simp at this
          simp [this]

/-- If every confirmation call succeeds, the confirmation loop appends one
confirm effect per reservation and reports no exception. -/
theorem runConfirms_all_ok (env : CheckoutEnv)
    (h : ∀ rid, env.confirm rid = .ok ()) :
    ∀ (rs : List String) (tr : List CkEffect),
      runConfirms env rs tr = (tr ++ rs.map .confirm, none) := by
  intro rs
  induction rs with
  | nil => intro tr; simp [runConfirms]
  | cons rid rest ih =>
      intro tr
      unfold runConfirms
      rw [h rid, ih]
      simp

/-! ### Behaviour of `express_checkout` across its outcome cases -/

/-- Whenever `express_checkout` raises the typed checkout error, the
release attempts in its trace are exactly the reservation ids acquired in
its trace, in acquisition order. -/
theorem express_checkout_error_releases (env : CheckoutEnv)
    (rel : String → Except String Bool) (uid : String)
    (cart : List CartItem) (tr' : List CkEffect) (m : String)
    (h : express_checkout env rel uid cart = (tr', .checkoutError m)) :
    releasedIds tr' = reservedIds tr' := by
  unfold express_checkout at h
  rcases h1 : runCartLoop env cart 0 [] [] [] with ⟨tr, rs, ois, err⟩
  have hrel : releasedIds tr = [] := by
    have h2 := runCartLoop_releasedIds env cart 0 [] [] []
    rw [h1] at h2
    simpa using h2
  have hres : reservedIds tr = rs := by
    have h2 := runCartLoop_reservedIds env cart 0 [] [] [] rfl
    rw [h1] at h2
    simpa using h2
  rw [h1] at h
  cases err with
  | some m0 =>
      simp only [Prod.mk.injEq] at h
      rw [← h.1, cleanup_eq_map, releasedIds_append, reservedIds_append,
          releasedIds_map_release, reservedIds_map_release, hrel, hres]
      simp
  | none =>
    dsimp only at h
    by_cases he : ois.isEmpty
    · rw [if_pos he] at h
      simp only [Prod.mk.injEq] at h
      rw [← h.1, cleanup_eq_map, releasedIds_append, reservedIds_append,
          releasedIds_map_release, reservedIds_map_release, hrel, hres]
      simp
    · rw [if_neg he] at h
      cases hoc : env.orderCheck ois with
      | error m1 =>
          rw [hoc] at h
          simp only [Prod.mk.injEq] at h
          rw [← h.1, cleanup_eq_map, releasedIds_append, reservedIds_append,
              releasedIds_map_release, reservedIds_map_release, hrel, hres]
          simp
      | ok u =>
          rw [hoc] at h
          cases hsv : env.save with
          | error m2 =>
              rw [hsv] at h
              simp only [Prod.mk.injEq] at h
              rw [← h.1, cleanup_eq_map, releasedIds_append,
                  reservedIds_append, releasedIds_map_release,
                  reservedIds_map_release, hrel, hres]
              simp
          | ok oid =>
              rw [hsv] at h
              rcases h2 : runConfirms env rs (tr ++ [.save ois]) with
                ⟨tr2, cerr⟩
              have hrel2 : releasedIds tr2 = [] := by
                have h3 := runConfirms_releasedIds env rs (tr ++ [.save ois])
                rw [h2] at h3
                simpa [hrel] using h3
              have hres2 : reservedIds tr2 = rs := by
                have h3 := runConfirms_reservedIds env rs (tr ++ [.save ois])
                rw [h2] at h3
                simpa [hres] using h3
              rw [h2] at h
              cases cerr with
              | some m3 =>
                  simp only [Prod.mk.injEq] at h
                  rw [← h.1, cleanup_eq_map, releasedIds_append,
                      reservedIds_append, releasedIds_map_release,
                      reservedIds_map_release, hrel2, hres2]
                  simp
              | none => simp at h

/-- When `express_checkout` succeeds, no release is ever attempted, and the
confirmed reservation ids are exactly the acquired ones, in order. -/
theorem express_checkout_ok_no_release (env : CheckoutEnv)
    (rel : String → Except String Bool) (uid : String)
    (cart : List CartItem) (tr' : List CkEffect) (r : CheckoutSuccess)
    (h : express_checkout env rel uid cart = (tr', .ok r)) :
    releasedIds tr' = [] ∧ confirmedIds tr' = reservedIds tr' := by
  unfold express_checkout at h
  rcases h1 : runCartLoop env cart 0 [] [] [] with ⟨tr, rs, ois, err⟩
  have hrel : releasedIds tr = [] := by
    have h2 := runCartLoop_releasedIds env cart 0 [] [] []
    rw [h1] at h2
    simpa using h2
  have hres : reservedIds tr = rs := by
    have h2 := runCartLoop_reservedIds env cart 0 [] [] [] rfl
    rw [h1] at h2
    simpa using h2
  have hcon : confirmedIds tr = [] := by
    have h2 := runCartLoop_confirmedIds env cart 0 [] [] []
    rw [h1] at h2
    simpa using h2
  rw [h1] at h
  cases err with
  | some m0 => simp at h
  | none =>
    dsimp only at h
    by_cases he : ois.isEmpty
    · rw [if_pos he] at h
      simp at h
    · rw [if_neg he] at h
      cases hoc : env.orderCheck ois with
      | error m1 => rw [hoc] at h; simp at h
      | ok u =>
          rw [hoc] at h
          cases hsv : env.save with
          | error m2 => rw [hsv] at h; simp at h
          | ok oid =>
              rw [hsv] at h
              rcases h2 : runConfirms env rs (tr ++ [.save ois]) with
                ⟨tr2, cerr⟩
              rw [h2] at h
              cases cerr with
              | some m3 => simp at h
              | none =>
                  simp only [Prod.mk.injEq] at h
                  rw [← h.1]
                  have hrel2 : releasedIds tr2 = [] := by
                    have h3 :=
                      runConfirms_releasedIds env rs (tr ++ [.save ois])
                    rw [h2] at h3
                    simpa [hrel] using h3
                  have hres2 : reservedIds tr2 = rs := by
                    have h3 :=
                      runConfirms_reservedIds env rs (tr ++ [.save ois])
                    rw [h2] at h3
                    simpa [hres] using h3
                  have hcon2 : confirmedIds tr2 = rs := by
                    have h3 :=
                      runConfirms_none_confirmedIds env rs
                        (tr ++ [.save ois]) tr2 h2
                    simpa [hcon] using h3
                  exact ⟨hrel2, by rw [hcon2, hres2]⟩

/-- In every run of `express_checkout`, the successfully confirmed
reservation ids form a prefix of the acquired reservation ids. -/
theorem express_checkout_confirmed_prefix (env : CheckoutEnv)
    (rel : String → Except String Bool) (uid : String)
    (cart : List CartItem) (tr' : List CkEffect) (res : CheckoutResult)
    (h : express_checkout env rel uid cart = (tr', res)) :
    ∃ n, confirmedIds tr' = (reservedIds tr').take n := by
  unfold express_checkout at h
  rcases h1 : runCartLoop env cart 0 [] [] [] with ⟨tr, rs, ois, err⟩
  have hres : reservedIds tr = rs := by
    have h2 := runCartLoop_reservedIds env cart 0 [] [] [] rfl
    rw [h1] at h2
    simpa using h2
  have hcon : confirmedIds tr = [] := by
    have h2 := runCartLoop_confirmedIds env cart 0 [] [] []
    rw [h1] at h2
    simpa using h2
  rw [h1] at h
  cases err with
  | some m0 =>
      simp only [Prod.mk.injEq] at h
      refine ⟨0, ?_⟩
      rw [← h.1, cleanup_eq_map]
      simp [hcon]
  | none =>
    dsimp only at h
    by_cases he : ois.isEmpty
    · rw [if_pos he] at h
      simp only [Prod.mk.injEq] at h
      refine ⟨0, ?_⟩
      rw [← h.1, cleanup_eq_map]
      simp [hcon]
    · rw [if_neg he] at h
      cases hoc : env.orderCheck ois with
      | error m1 =>
          rw [hoc] at h
          simp only [Prod.mk.injEq] at h
          refine ⟨0, ?_⟩
          rw [← h.1, cleanup_eq_map]
          simp [hcon]
      | ok u =>
          rw [hoc] at h
          cases hsv : env.save with
          | error m2 =>
              rw [hsv] at h
              simp only [Prod.mk.injEq] at h
              refine ⟨0, ?_⟩
              rw [← h.1, cleanup_eq_map]
              simp [hcon]
          | ok oid =>
              rw [hsv] at h
              rcases h2 : runConfirms env rs (tr ++ [.save ois]) with
                ⟨tr2, cerr⟩
              rw [h2] at h
              have hres2 : reservedIds tr2 = rs := by
                have h3 := runConfirms_reservedIds env rs (tr ++ [.save ois])
                rw [h2] at h3
                simpa [hres] using h3
              obtain ⟨n, hn⟩ :=
                runConfirms_confirm_prefix env rs (tr ++ [.save ois])
              rw [h2] at hn
              simp only at hn
              have hcon2 : confirmedIds tr2 = rs.take n := by
                simpa [hcon] using hn
              cases cerr with
              | some m3 =>
                  simp only [Prod.mk.injEq] at h
                  refine ⟨n, ?_⟩
                  rw [← h.1, cleanup_eq_map]
                  simp [hcon2, hres2]
              | none =>
                  simp only [Prod.mk.injEq] at h
                  refine ⟨n, ?_⟩
                  rw [← h.1, hcon2, hres2]

/-- The outcomes of the `release_stock` calls influence neither the trace
nor the result of `express_checkout`: a failing release is logged and the
compensation loop continues identically. -/
theorem express_checkout_release_irrelevant (env : CheckoutEnv)
    (rel rel' : String → Except String Bool) (uid : String)
    (cart : List CartItem) :
    express_checkout env rel uid cart = express_checkout env rel' uid cart := by
  have hfun : cleanup_reservations rel = cleanup_reservations rel' := by
    funext rs
    rw [cleanup_eq_map, cleanup_eq_map]
  unfold express_checkout
  rw [hfun]

/-- If every product lookup in range reports "not found", the cart loop
acquires nothing, builds nothing and raises nothing. -/
theorem runCartLoop_all_none (env : CheckoutEnv) :
    ∀ (cart : List CartItem) (idx : ℕ) (tr : List CkEffect)
      (rs : List String) (ois : List OrderItem),
      (∀ i, idx ≤ i → i < idx + cart.length → env.lookup i = .ok none) →
      (runCartLoop env cart idx tr rs ois).2 = (rs, ois, none) := by
  intro cart
  induction cart with
  | nil => intro idx tr rs ois _; rfl
  | cons it rest ih =>
      intro idx tr rs ois hall
      have h0 : env.lookup idx = .ok none :=
        hall idx le_rfl (by simp)
      unfold runCartLoop
      rw [h0]
      exact ih (idx + 1) _ rs ois (fun i h1 h2 =>
        hall i (by omega) (by simpa [Nat.add_comm, Nat.add_assoc] using by omega))

/-- Under an all-successful environment the cart loop raises nothing,
reserves exactly the resolvable positions (in order) and accumulates
exactly the resolvable items (in order). -/
theorem runCartLoop_happy (prodOf : ℕ → Option ProductInfo)
    (ridOf : ℕ → String) (oid : String) :
    ∀ (cart : List CartItem) (idx : ℕ) (tr : List CkEffect)
      (rs : List String) (ois : List OrderItem),
      (runCartLoop (happyEnv prodOf ridOf oid) cart idx tr rs ois).2.2.2 =
          none
      ∧ (runCartLoop (happyEnv prodOf ridOf oid) cart idx tr rs ois).2.1 =
          rs ++ (resolvedIdxsFrom prodOf idx cart).map ridOf
      ∧ (runCartLoop (happyEnv prodOf ridOf oid) cart idx tr rs ois).2.2.1 =
          ois ++ resolvedItemsFrom prodOf idx cart
      ∧ reservedIdxs
            (runCartLoop (happyEnv prodOf ridOf oid) cart idx tr rs ois).1 =
          reservedIdxs tr ++ resolvedIdxsFrom prodOf idx cart := by
  intro cart
  induction cart with
  | nil =>
      intro idx tr rs ois
      simp [runCartLoop, resolvedIdxsFrom, resolvedItemsFrom]
  | cons it rest ih =>
      intro idx tr rs ois
      unfold runCartLoop
      show _ ∧ _ ∧ _ ∧ _
      cases hp : prodOf idx with
      | none =>
          have hl : (happyEnv prodOf ridOf oid).lookup idx = .ok none := by
            simp [happyEnv, hp]
          rw [hl]
          obtain ⟨a, b, c, d⟩ := ih (idx + 1) (tr ++ [.lookup idx it.product_id]) rs ois
          refine ⟨a, ?_, ?_, ?_⟩
          · rw [b]
            simp [resolvedIdxsFrom, hp]
          · rw [c]
            simp [resolvedItemsFrom, hp]
          · rw [d]
            simp [resolvedIdxsFrom, hp]
      | some p =>
          have hl : (happyEnv prodOf ridOf oid).lookup idx = .ok (some p) := by
            simp [happyEnv, hp]
          have hr : (happyEnv prodOf ridOf oid).reserve idx = .ok (ridOf idx) := by
            simp [happyEnv]
          rw [hl, hr]
          obtain ⟨a, b, c, d⟩ := ih (idx + 1)
            (tr ++ [.lookup idx it.product_id,
                    .reserve idx it.product_id it.quantity (ridOf idx)])
            (rs ++ [ridOf idx])
            (ois ++ [⟨it.product_id, p.name, it.quantity, p.price⟩])
          refine ⟨a, ?_, ?_, ?_⟩
          · rw [b]
            simp [resolvedIdxsFrom, hp]
          · rw [c]
            simp [resolvedItemsFrom, hp]
          · rw [d]
            simp [resolvedIdxsFrom, hp]

@[simp] theorem releasedIds_map_confirm (rs : List String) :
    releasedIds (rs.map CkEffect.confirm) = [] := by
  induction rs with
  | nil => rfl
  | cons rid rest ih => simp [ih]

@[simp] theorem reservedIdxs_map_confirm (rs : List String) :
    reservedIdxs (rs.map CkEffect.confirm) = [] := by
  induction rs with
  | nil => rfl
  | cons rid rest ih => simp [ih]

@[simp] theorem savedProducts_map_confirm (rs : List String) :
    savedProducts (rs.map CkEffect.confirm) = [] := by
  induction rs with
  | nil => rfl
  | cons rid rest ih => simp [ih]

/-- Full description of a checkout run in which some cart items resolve
(`hne`) and every collaborator call succeeds: the run succeeds with the
resolved items only, persists exactly the resolved items, reserves exactly
at the resolving cart positions, and never attempts a release. -/
theorem express_checkout_happy (prodOf : ℕ → Option ProductInfo)
    (ridOf : ℕ → String) (oid : String)
    (rel : String → Except String Bool) (uid : String)
    (cart : List CartItem)
    (hne : resolvedItemsFrom prodOf 0 cart ≠ []) :
    (express_checkout (happyEnv prodOf ridOf oid) rel uid cart).2 =
      .ok ⟨oid,
           (Order.mk "" uid (resolvedItemsFrom prodOf 0 cart) .pending).total,
           (Order.mk "" uid (resolvedItemsFrom prodOf 0 cart) .pending).tax,
           (resolvedItemsFrom prodOf 0 cart).length⟩
    ∧ savedProducts
        (express_checkout (happyEnv prodOf ridOf oid) rel uid cart).1 =
      [resolvedItemsFrom prodOf 0 cart]
    ∧ reservedIdxs
        (express_checkout (happyEnv prodOf ridOf oid) rel uid cart).1 =
      resolvedIdxsFrom prodOf 0 cart
    ∧ releasedIds
        (express_checkout (happyEnv prodOf ridOf oid) rel uid cart).1 =
      [] := by
  unfold express_checkout
  rcases h1 : runCartLoop (happyEnv prodOf ridOf oid) cart 0 [] [] [] with
    ⟨tr, rs, ois, err⟩
  obtain ⟨ha, hb, hc, hd⟩ := runCartLoop_happy prodOf ridOf oid cart 0 [] [] []
  rw [h1] at ha hb hc hd
  simp only at ha hb hc hd
  subst ha
  simp only [List.nil_append] at hb hc
  subst hb
  subst hc
  have hsaved : savedProducts tr = [] := by
    have h2 := runCartLoop_savedProducts (happyEnv prodOf ridOf oid) cart 0 [] [] []
    rw [h1] at h2
    simpa using h2
  have hrel : releasedIds tr = [] := by
    have h2 := runCartLoop_releasedIds (happyEnv prodOf ridOf oid) cart 0 [] [] []
    rw [h1] at h2
    simpa using h2
  have hempty : (resolvedItemsFrom prodOf 0 cart).isEmpty = false := by
    cases hx : resolvedItemsFrom prodOf 0 cart with
    | nil => exact absurd hx hne
    | cons a l => rfl
  dsimp only
  rw [hempty]
  have hconf : ∀ rid, (happyEnv prodOf ridOf oid).confirm rid = .ok () := by
    intro rid
    rfl
  rw [runConfirms_all_ok (happyEnv prodOf ridOf oid) hconf]
  have hoc : (happyEnv prodOf ridOf oid).orderCheck
      (resolvedItemsFrom prodOf 0 cart) = .ok () := rfl
  have hsv : (happyEnv prodOf ridOf oid).save = .ok oid := rfl
  rw [hoc, hsv]
  refine ⟨rfl, ?_, ?_, ?_⟩
  · simp [hsaved, ← List.map_map]
  · simp [hd, ← List.map_map]
  · simp [hrel, ← List.map_map]

/-- If no cart item resolves to a product, `express_checkout` raises the
typed "No valid items in cart" error, having reserved nothing and released
nothing. -/
theorem express_checkout_no_valid_items (env : CheckoutEnv)
    (rel : String → Except String Bool) (uid : String)
    (cart : List CartItem)
    (hall : ∀ i, i < cart.length → env.lookup i = .ok none) :
    (express_checkout env rel uid cart).2 =
        .checkoutError "No valid items in cart"
    ∧ releasedIds (express_checkout env rel uid cart).1 = []
    ∧ reservedIds (express_checkout env rel uid cart).1 = [] := by
  unfold express_checkout
  rcases h1 : runCartLoop env cart 0 [] [] [] with ⟨tr, rs, ois, err⟩
  have h2 := runCartLoop_all_none env cart 0 [] [] []
    (fun i _ hi => hall i (by simpa using hi))
  rw [h1] at h2
  simp only [Prod.mk.injEq] at h2
  obtain ⟨hrs, hois, herr⟩ := h2
  subst hrs
  subst hois
  subst herr
  have hrel : releasedIds tr = [] := by
    have h3 := runCartLoop_releasedIds env cart 0 [] [] []
    rw [h1] at h3
    simpa using h3
  have hres : reservedIds tr = [] := by
    have h3 := runCartLoop_reservedIds env cart 0 [] [] [] rfl
    rw [h1] at h3
    simpa using h3
  refine ⟨rfl, ?_, ?_⟩
  · show releasedIds (tr ++ cleanup_reservations rel []) = []
    rw [show cleanup_reservations rel [] = [] from rfl, List.append_nil]
    exact hrel
  · show reservedIds (tr ++ cleanup_reservations rel []) = []
    rw [show cleanup_reservations rel [] = [] from rfl, List.append_nil]
    exact hres

/-! ## Claim theorems -/

/-- C3: for every order and every lifecycle operation (`mark_as_shipped`,
`mark_as_delivered`, `cancel_order`), if `update_status` rejects the
transition as illegal, the operation raises the typed `OrderStatusError`
identifying the illegal transition, performs no persistence call and no
notification dispatch, and leaves the order in its prior status. -/
theorem C3_transition_rejected (env : LifecycleEnv) (o : Order)
    (tracking carrier uid reason : String) :
    (allowedTransition o.status .shipped = false →
      mark_as_shipped env o tracking carrier =
        (o, [], .statusError ⟨o.status, .shipped⟩))
    ∧ (allowedTransition o.status .delivered = false →
      mark_as_delivered env o = (o, [], .statusError ⟨o.status, .delivered⟩))
    ∧ (allowedTransition o.status .cancelled = false →
      cancel_order env o uid reason =
        (o, [], .statusError ⟨o.status, .cancelled⟩)) := by
  refine ⟨?_, ?_, ?_⟩
  · intro h
    simp [mark_as_shipped, update_status, h]
  · intro h
    simp [mark_as_delivered, update_status, h]
  · intro h
    simp [cancel_order, update_status, h]

/-- Witness for C3: a DELIVERED order is terminal, so shipping, delivering
again and cancelling are all rejected with no effect. -/
theorem C3_transition_rejected_witness :
    mark_as_shipped envNotifyFail ordDelivered "TRK" "ups" =
      (ordDelivered, [], .statusError ⟨.delivered, .shipped⟩)
    ∧ mark_as_delivered envNotifyFail ordDelivered =
      (ordDelivered, [], .statusError ⟨.delivered, .delivered⟩)
    ∧ cancel_order envNotifyFail ordDelivered "U3" "changed mind" =
      (ordDelivered, [], .statusError ⟨.delivered, .cancelled⟩) := by
  obtain ⟨h1, h2, h3⟩ :=
    C3_transition_rejected envNotifyFail ordDelivered "TRK" "ups" "U3"
      "changed mind"
  exact ⟨h1 rfl, h2 rfl, h3 rfl⟩

/-- C4: when the transition and persistence steps of `mark_as_shipped`
succeed, the operation returns its success record (order id, SHIPPED,
tracking number, carrier) whatever the notification outcome: the
notification is attempted, and its failure does not change the result. -/
theorem C4_notification_best_effort (env : LifecycleEnv) (o : Order)
    (tracking carrier : String)
    (h1 : allowedTransition o.status .shipped = true)
    (h2 : env.persistResult = .ok ()) :
    (mark_as_shipped env o tracking carrier).2.2 =
      .ok ⟨o.order_id, .shipped, tracking, carrier⟩
    ∧ (mark_as_shipped env o tracking carrier).2.1 =
      [.persist o.order_id .shipped, .notify "shipping_update" o.order_id]
    ∧ (mark_as_shipped env o tracking carrier).2.2 =
      (mark_as_shipped ⟨env.persistResult, true⟩ o tracking carrier).2.2 := by
  refine ⟨?_, ?_, ?_⟩ <;>
    simp [mark_as_shipped, update_status, h1, h2, send_shipping_confirmation]

/-- Witness for C4: a PENDING order shipped under an environment whose
notification dispatch fails still returns the success record. -/
theorem C4_notification_best_effort_witness :
    envNotifyFail.notifyOk = false
    ∧ (mark_as_shipped envNotifyFail ordPending "TRK-1" "dhl").2.2 =
      .ok ⟨"O4", .shipped, "TRK-1", "dhl"⟩
    ∧ (mark_as_shipped envNotifyFail ordPending "TRK-1" "dhl").2.1 =
      [.persist "O4" .shipped, .notify "shipping_update" "O4"] := by
  obtain ⟨h1, h2, _⟩ :=
    C4_notification_best_effort envNotifyFail ordPending "TRK-1" "dhl"
      rfl rfl
  exact ⟨rfl, h1, h2⟩

/-- C10: `apply_discount_to_order` leaves every field of the order
unchanged (items, subtotal, tax, total, status) whether it succeeds or
fails, and performs no persistence or notification call. -/
theorem C10_discount_frame (minOrderAmount : ℚ) (o : Order)
    (code : String) :
    (apply_discount_to_order minOrderAmount o code).1 = o
    ∧ (apply_discount_to_order minOrderAmount o code).1.items = o.items
    ∧ (apply_discount_to_order minOrderAmount o code).1.status = o.status
    ∧ (apply_discount_to_order minOrderAmount o code).1.subtotal = o.subtotal
    ∧ (apply_discount_to_order minOrderAmount o code).1.tax = o.tax
    ∧ (apply_discount_to_order minOrderAmount o code).1.total = o.total
    ∧ (apply_discount_to_order minOrderAmount o code).2.1 = [] := by
  have h : (apply_discount_to_order minOrderAmount o code).1 = o
      ∧ (apply_discount_to_order minOrderAmount o code).2.1 = [] := by
    unfold apply_discount_to_order
    cases DISCOUNT_CODES code.toUpper with
    | none => exact ⟨rfl, rfl⟩
    | some v =>
        obtain ⟨b, val, mo⟩ := v
        dsimp only
        split_ifs <;> exact ⟨rfl, rfl⟩
  refine ⟨h.1, ?_, ?_, ?_, ?_, ?_, h.2⟩ <;> rw [h.1]

/-- C5: `apply_bulk_discount` selects 15% for quantity ≥ 50, else 10% for
quantity ≥ 20, else 5% for quantity ≥ 10, else 0% — boundary quantities 10,
20, 50 getting the higher tier — and applies the discount to the unit price
before multiplying by the quantity:
`unit_price = round(p * (1 - pct/100), 2)`,
`subtotal = round(unit_price * q, 2)`. -/
theorem C5_bulk_discount_tiers (userFound productFound inStock : Bool)
    (p : ℚ) (q : ℕ) (r : BulkQuote)
    (h : apply_bulk_discount userFound productFound inStock p q = .ok r) :
    r.discount_percent = bulkDiscountPct q
    ∧ r.unit_price = round2 (p * (1 - bulkDiscountPct q / 100))
    ∧ r.subtotal = round2 (r.unit_price * (q : ℚ))
    ∧ (bulkDiscountPct q = 15 ↔ 50 ≤ q)
    ∧ (bulkDiscountPct q = 10 ↔ 20 ≤ q ∧ q < 50)
    ∧ (bulkDiscountPct q = 5 ↔ 10 ≤ q ∧ q < 20)
    ∧ (bulkDiscountPct q = 0 ↔ q < 10)
    ∧ bulkDiscountPct 9 = 0 ∧ bulkDiscountPct 10 = 5
    ∧ bulkDiscountPct 20 = 10 ∧ bulkDiscountPct 50 = 15 := by
  have hr : r = ⟨q, p, bulkDiscountPct q,
      round2 (p * (1 - bulkDiscountPct q / 100)),
      round2 (round2 (p * (1 - bulkDiscountPct q / 100)) * (q : ℚ)),
      round2 (round2 (round2 (p * (1 - bulkDiscountPct q / 100)) * (q : ℚ))
        * TAX_RATE),
      round2 (round2 (round2 (p * (1 - bulkDiscountPct q / 100)) * (q : ℚ))
        + round2 (round2 (round2 (p * (1 - bulkDiscountPct q / 100))
          * (q : ℚ)) * TAX_RATE))⟩ := by
    cases userFound with
    | false => simp [apply_bulk_discount] at h
    | true =>
      cases productFound with
      | false => simp [apply_bulk_discount] at h
      | true =>
        cases inStock with
        | false => simp [apply_bulk_discount] at h
        | true =>
            simp only [apply_bulk_discount, Bool.not_true,
              Bool.false_eq_true, if_false, Except.ok.injEq] at h
            exact h.symm
  subst hr
  refine ⟨rfl, rfl, rfl, ?_, ?_, ?_, ?_, ?_, ?_, ?_, ?_⟩
  · unfold bulkDiscountPct
    split_ifs with a b c <;> constructor <;> intro hx <;>
      first
        | rfl
        | omega
        | (exfalso; norm_num at hx)
  · unfold bulkDiscountPct
    split_ifs with a b c <;> constructor <;> intro hx <;>
      first
        | rfl
        | omega
        | (exfalso; norm_num at hx)
  · unfold bulkDiscountPct
    split_ifs with a b c <;> constructor <;> intro hx <;>
      first
        | rfl
        | omega
        | (exfalso; norm_num at hx)
  · unfold bulkDiscountPct
    split_ifs with a b c <;> constructor <;> intro hx <;>
      first
        | rfl
        | omega
        | (exfalso; norm_num at hx)
  · norm_num [bulkDiscountPct]
  · norm_num [bulkDiscountPct]
  · norm_num [bulkDiscountPct]
  · norm_num [bulkDiscountPct]

/-- Witness for C5: quantity 50 at base price 10 gets the 15% tier:
unit price 8.50, subtotal 425.00, tax 34.00, total 459.00. -/
theorem C5_bulk_discount_tiers_witness :
    apply_bulk_discount true true true 10 50 =
      .ok ⟨50, 10, 15, 17/2, 425, 34, 459⟩
    ∧ (BulkQuote.mk 50 10 15 (17/2) 425 34 459).discount_percent =
      bulkDiscountPct 50
    ∧ (BulkQuote.mk 50 10 15 (17/2) 425 34 459).unit_price =
      round2 (10 * (1 - bulkDiscountPct 50 / 100))
    ∧ (BulkQuote.mk 50 10 15 (17/2) 425 34 459).subtotal =
      round2 ((BulkQuote.mk 50 10 15 (17/2) 425 34 459).unit_price
        * ((50 : ℕ) : ℚ)) := by
  have hb : bulkDiscountPct 50 = 15 := by norm_num [bulkDiscountPct]
  have e1 : round2 (10 * (1 - (15 : ℚ) / 100)) = 17/2 := by
    rw [round2_self _ 850 (by norm_num)]
    norm_num
  have e2 : round2 ((17 : ℚ)/2 * ((50 : ℕ) : ℚ)) = 425 := by
    rw [round2_self _ 42500 (by norm_num)]
    norm_num
  have e3 : round2 ((425 : ℚ) * TAX_RATE) = 34 := by
    rw [round2_self _ 3400 (by norm_num [TAX_RATE])]
    norm_num [TAX_RATE]
  have e4 : round2 ((425 : ℚ) + 34) = 459 := by
    rw [round2_self _ 45900 (by norm_num)]
    norm_num
  have h : apply_bulk_discount true true true 10 50 =
      .ok ⟨50, 10, 15, 17/2, 425, 34, 459⟩ := by
    simp only [apply_bulk_discount, Bool.not_true, Bool.false_eq_true,
      if_false, hb, e1, e2, e3, e4]
  have c := C5_bulk_discount_tiers true true true 10 50
    ⟨50, 10, 15, 17/2, 425, 34, 459⟩ h
  exact ⟨h, c.1, c.2.1, c.2.2.1⟩

/-- C6: for every non-empty item list, `calculate_refund` returns
`round(subtotal + round(subtotal * TAX_RATE, 2), 2)` where `subtotal` is
the (unrounded) sum of `unit_price * quantity`; the spec's example
`[{unit_price: 50, quantity: 2}]` yields subtotal 100, tax credit 8.00 and
refund 108.00; the empty list returns 0. -/
theorem C6_calculate_refund :
    (∀ items : List RefundItem, items ≠ [] →
        calculate_refund items =
          round2 ((items.map lineTotal).sum +
            round2 ((items.map lineTotal).sum * TAX_RATE)))
    ∧ (([⟨50, 2⟩] : List RefundItem).map lineTotal).sum = 100
    ∧ round2 ((100 : ℚ) * TAX_RATE) = 8
    ∧ calculate_refund [⟨50, 2⟩] = 108
    ∧ calculate_refund [] = 0 := by
  have hgen : ∀ items : List RefundItem, items ≠ [] →
      calculate_refund items =
        round2 ((items.map lineTotal).sum +
          round2 ((items.map lineTotal).sum * TAX_RATE)) := by
    intro items hne
    cases items with
    | nil => exact absurd rfl hne
    | cons a l => rfl
  have hS : (([⟨50, 2⟩] : List RefundItem).map lineTotal).sum = 100 := by
    norm_num [lineTotal]
  have htax : round2 ((100 : ℚ) * TAX_RATE) = 8 := by
    rw [round2_self _ 800 (by norm_num [TAX_RATE])]
    norm_num [TAX_RATE]
  have htot : round2 ((100 : ℚ) + 8) = 108 := by
    rw [round2_self _ 10800 (by norm_num)]
    norm_num
  refine ⟨hgen, hS, htax, ?_, rfl⟩
  rw [hgen [⟨50, 2⟩] (by simp), hS, htax, htot]

/-- Witness for C6: the general formula applied to the spec's example. -/
theorem C6_calculate_refund_witness :
    calculate_refund [⟨50, 2⟩] =
      round2 ((([⟨50, 2⟩] : List RefundItem).map lineTotal).sum +
        round2 ((([⟨50, 2⟩] : List RefundItem).map lineTotal).sum
          * TAX_RATE)) :=
  C6_calculate_refund.1 [⟨50, 2⟩] (by simp)

/-- C7 counterexample: `calculate_refund` does NOT round the summed
subtotal before computing the tax credit. For a single item of unit price
0.0626 the source computes tax credit round2(0.0626·0.08) =
round2(0.005008) = 0.01 and refund round2(0.0726) = 0.07, whereas rounding
the subtotal first (as the claim asserts) computes subtotal 0.06, tax
credit round2(0.0048) = 0.00 and refund 0.06. -/
theorem C7_rounding_counterexample :
    calculate_refund [⟨313/5000, 1⟩] = 7/100
    ∧ calculate_refund_roundedSubtotal [⟨313/5000, 1⟩] = 6/100
    ∧ calculate_refund [⟨313/5000, 1⟩] ≠
      calculate_refund_roundedSubtotal [⟨313/5000, 1⟩] := by
  have hS : (([⟨313/5000, 1⟩] : List RefundItem).map lineTotal).sum =
      313/5000 := by
    norm_num [lineTotal]
  have htax : round2 ((313/5000 : ℚ) * TAX_RATE) = 1/100 := by
    rw [round2_up _ 0 (by norm_num [TAX_RATE]) (by norm_num [TAX_RATE])
      (by norm_num [TAX_RATE])]
    norm_num
  have htot : round2 ((313/5000 : ℚ) + 1/100) = 7/100 := by
    rw [round2_down _ 7 (by norm_num) (by norm_num)]
    norm_num
  have hSr : round2 ((313/5000 : ℚ)) = 6/100 := by
    rw [round2_down _ 6 (by norm_num) (by norm_num)]
    norm_num
  have htax2 : round2 ((6/100 : ℚ) * TAX_RATE) = 0 := by
    rw [round2_down _ 0 (by norm_num [TAX_RATE]) (by norm_num [TAX_RATE])]
    norm_num
  have htot2 : round2 ((6/100 : ℚ) + 0) = 6/100 := by
    rw [round2_self _ 6 (by norm_num)]
    norm_num
  have h1 : calculate_refund [⟨313/5000, 1⟩] = 7/100 := by
    show round2 ((([⟨313/5000, 1⟩] : List RefundItem).map lineTotal).sum +
      round2 ((([⟨313/5000, 1⟩] : List RefundItem).map lineTotal).sum
        * TAX_RATE)) = 7/100
    rw [hS, htax, htot]
  have h2 : calculate_refund_roundedSubtotal [⟨313/5000, 1⟩] = 6/100 := by
    show round2 (round2 ((([⟨313/5000, 1⟩] : List RefundItem).map
        lineTotal).sum) +
      round2 (round2 ((([⟨313/5000, 1⟩] : List RefundItem).map
        lineTotal).sum) * TAX_RATE)) = 6/100
    rw [hS, hSr, htax2, htot2]
  refine ⟨h1, h2, ?_⟩
  rw [h1, h2]
  norm_num

/-- C7 amended: in `calculate_refund` the tax credit and the final refund
total are each rounded to two decimal places, but the summed subtotal is
NOT rounded before the tax credit is computed from it (the rounded-subtotal
reading produces a different refund, as the counterexample input shows). -/
theorem C7_rounding_amended :
    (∀ items : List RefundItem, items ≠ [] →
        calculate_refund items =
          round2 ((items.map lineTotal).sum +
            round2 ((items.map lineTotal).sum * TAX_RATE)))
    ∧ ∃ items : List RefundItem,
        calculate_refund items ≠ calculate_refund_roundedSubtotal items := by
  constructor
  · intro items hne
    cases items with
    | nil => exact absurd rfl hne
    | cons a l => rfl
  · exact ⟨[⟨313/5000, 1⟩], C7_rounding_counterexample.2.2⟩

/-- C1: whenever a checkout run ends in the typed `ExpressCheckoutError`
(any exception at any step after accumulation began), every reservation id
accumulated so far is released, in accumulation order (the release attempts
of the trace are exactly the acquired reservation ids); and the outcomes of
the individual `release_stock` calls are irrelevant to the run — a failing
release is logged and the remaining releases still happen identically. -/
theorem C1_compensation_on_failure (env : CheckoutEnv)
    (rel rel' : String → Except String Bool) (uid : String)
    (cart : List CartItem) (tr : List CkEffect) (m : String)
    (h : express_checkout env rel uid cart = (tr, .checkoutError m)) :
    releasedIds tr = reservedIds tr
    ∧ express_checkout env rel uid cart =
      express_checkout env rel' uid cart :=
  ⟨express_checkout_error_releases env rel uid cart tr m h,
   express_checkout_release_irrelevant env rel rel' uid cart⟩

/-- Witness for C1: the spec's own scenario — three items reserve
successfully (R1, R2, R3), order construction then fails, the release of R2
itself fails; all three releases are attempted, in order, and the run ends
in the typed checkout error. -/
theorem C1_compensation_on_failure_witness :
    express_checkout envC1 relC1 "u1" cartW3 =
      (trC1, .checkoutError "Checkout failed: order invalid")
    ∧ releasedIds trC1 = reservedIds trC1
    ∧ releasedIds trC1 = ["R1", "R2", "R3"]
    ∧ express_checkout envC1 relC1 "u1" cartW3 =
      express_checkout envC1 relOk "u1" cartW3 := by
  have h : express_checkout envC1 relC1 "u1" cartW3 =
      (trC1, .checkoutError "Checkout failed: order invalid") := by rfl
  have c := C1_compensation_on_failure envC1 relC1 relOk "u1" cartW3 trC1
    "Checkout failed: order invalid" h
  exact ⟨h, c.1, rfl, c.2⟩

/-- C2 counterexample: the claim "no execution path both confirms a
reservation and later releases it" is false. With two reservations R1, R2
where confirming R2 raises after R1 was already confirmed, compensation
releases both — so R1 is confirmed AND later released in the same run. -/
theorem C2_confirm_then_release_counterexample :
    confirmedIds (express_checkout envC2 relOk "u2" cartW2).1 = ["R1"]
    ∧ releasedIds (express_checkout envC2 relOk "u2" cartW2).1 =
      ["R1", "R2"]
    ∧ (express_checkout envC2 relOk "u2" cartW2).2 =
      .checkoutError "Checkout failed: confirm failure" :=
  ⟨rfl, rfl, rfl⟩

/-- C2 amended: assuming the reservation ids of a run are distinct, each
reservation is confirmed at most once and released at most once; on a
successful run no reservation is released and every one is confirmed
exactly once; on a failed run every accumulated reservation is released
exactly once — but a reservation confirmed before a later confirmation
failure is, in addition, released by compensation (as the counterexample
run shows). -/
theorem C2_amended_at_most_once (env : CheckoutEnv)
    (rel : String → Except String Bool) (uid : String)
    (cart : List CartItem) (tr : List CkEffect) (res : CheckoutResult)
    (h : express_checkout env rel uid cart = (tr, res))
    (hnd : (reservedIds tr).Nodup) :
    (∀ rid, (confirmedIds tr).count rid ≤ 1
      ∧ (releasedIds tr).count rid ≤ 1)
    ∧ (∀ r, res = .ok r → releasedIds tr = []
        ∧ confirmedIds tr = reservedIds tr)
    ∧ (∀ m, res = .checkoutError m →
        releasedIds tr = reservedIds tr) := by
  obtain ⟨n, hn⟩ := express_checkout_confirmed_prefix env rel uid cart tr res h
  have hcount : ∀ rid, (reservedIds tr).count rid ≤ 1 :=
    List.nodup_iff_count_le_one.mp hnd
  refine ⟨?_, ?_, ?_⟩
  · intro rid
    constructor
    · calc (confirmedIds tr).count rid
          = ((reservedIds tr).take n).count rid := by rw [hn]
        _ ≤ (reservedIds tr).count rid :=
            (List.take_sublist n (reservedIds tr)).count_le rid
        _ ≤ 1 := hcount rid
    · cases res with
      | ok r =>
          have := express_checkout_ok_no_release env rel uid cart tr r h
          rw [this.1]
          simp
      | checkoutError m =>
          have := express_checkout_error_releases env rel uid cart tr m h
          rw [this]
          exact hcount rid
  · intro r hr
    subst hr
    exact express_checkout_ok_no_release env rel uid cart tr r h
  · intro m hm
    subst hm
    exact express_checkout_error_releases env rel uid cart tr m h

/-- Witness for C2 amended: the two-reservation run with a confirmation
failure has distinct reservation ids, confirms and releases each id at most
once, and releases exactly the accumulated ids. -/
theorem C2_amended_at_most_once_witness :
    (reservedIds (express_checkout envC2 relOk "u2" cartW2).1).Nodup
    ∧ (confirmedIds
        (express_checkout envC2 relOk "u2" cartW2).1).count "R1" ≤ 1
    ∧ (releasedIds
        (express_checkout envC2 relOk "u2" cartW2).1).count "R1" ≤ 1
    ∧ releasedIds (express_checkout envC2 relOk "u2" cartW2).1 =
      reservedIds (express_checkout envC2 relOk "u2" cartW2).1 := by
  have hnd :
      (reservedIds (express_checkout envC2 relOk "u2" cartW2).1).Nodup := by
    decide
  have c := C2_amended_at_most_once envC2 relOk "u2" cartW2
    (express_checkout envC2 relOk "u2" cartW2).1
    (express_checkout envC2 relOk "u2" cartW2).2 rfl hnd
  exact ⟨hnd, (c.1 "R1").1, (c.1 "R1").2,
    c.2.2 "Checkout failed: confirm failure" rfl⟩

/-- C8: if no requested cart item resolves to an existing product,
`express_checkout` raises the typed error "No valid items in cart", no
reservation was made, and the compensation step releases nothing. -/
theorem C8_no_valid_items (env : CheckoutEnv)
    (rel : String → Except String Bool) (uid : String)
    (cart : List CartItem)
    (hall : ∀ i, i < cart.length → env.lookup i = .ok none) :
    (express_checkout env rel uid cart).2 =
        .checkoutError "No valid items in cart"
    ∧ releasedIds (express_checkout env rel uid cart).1 = []
    ∧ reservedIds (express_checkout env rel uid cart).1 = [] :=
  express_checkout_no_valid_items env rel uid cart hall

/-- Witness for C8: a one-item cart whose lookup finds nothing. -/
theorem C8_no_valid_items_witness :
    (express_checkout envC8 relOk "u8" [⟨"P9", 1⟩]).2 =
        .checkoutError "No valid items in cart"
    ∧ releasedIds (express_checkout envC8 relOk "u8" [⟨"P9", 1⟩]).1 = []
    ∧ reservedIds (express_checkout envC8 relOk "u8" [⟨"P9", 1⟩]).1 = [] :=
  C8_no_valid_items envC8 relOk "u8" [⟨"P9", 1⟩] (fun _ _ => rfl)

/-- C9: when some cart items do not resolve but at least one does and every
collaborator call succeeds, `express_checkout` succeeds silently omitting
the unresolvable items: the persisted order contains exactly the resolvable
items, the reported item count is theirs, reservations are made exactly at
the resolving cart positions, and nothing is released. -/
theorem C9_silent_item_skip (prodOf : ℕ → Option ProductInfo)
    (ridOf : ℕ → String) (oid : String)
    (rel : String → Except String Bool) (uid : String)
    (cart : List CartItem)
    (hne : resolvedItemsFrom prodOf 0 cart ≠ []) :
    (express_checkout (happyEnv prodOf ridOf oid) rel uid cart).2 =
      .ok ⟨oid,
           (Order.mk "" uid (resolvedItemsFrom prodOf 0 cart) .pending).total,
           (Order.mk "" uid (resolvedItemsFrom prodOf 0 cart) .pending).tax,
           (resolvedItemsFrom prodOf 0 cart).length⟩
    ∧ savedProducts
        (express_checkout (happyEnv prodOf ridOf oid) rel uid cart).1 =
      [resolvedItemsFrom prodOf 0 cart]
    ∧ reservedIdxs
        (express_checkout (happyEnv prodOf ridOf oid) rel uid cart).1 =
      resolvedIdxsFrom prodOf 0 cart
    ∧ releasedIds
        (express_checkout (happyEnv prodOf ridOf oid) rel uid cart).1 =
      [] :=
  express_checkout_happy prodOf ridOf oid rel uid cart hne

/-- Witness for C9: a two-item cart whose first item is unresolvable; the
run succeeds, saves exactly the one resolved item, reserves only at
position 1 and releases nothing. -/
theorem C9_silent_item_skip_witness :
    resolvedItemsFrom prodOfW 0 cartW9 ≠ []
    ∧ savedProducts (express_checkout (happyEnv prodOfW ridOfW "ORD-9")
        relOk "u9" cartW9).1 = [resolvedItemsFrom prodOfW 0 cartW9]
    ∧ reservedIdxs (express_checkout (happyEnv prodOfW ridOfW "ORD-9")
        relOk "u9" cartW9).1 = [1]
    ∧ releasedIds (express_checkout (happyEnv prodOfW ridOfW "ORD-9")
        relOk "u9" cartW9).1 = []
    ∧ (resolvedItemsFrom prodOfW 0 cartW9).length = 1 := by
  have hne : resolvedItemsFrom prodOfW 0 cartW9 ≠ [] := by decide
  have c := C9_silent_item_skip prodOfW ridOfW "ORD-9" relOk "u9" cartW9 hne
  refine ⟨hne, c.2.1, ?_, c.2.2.2, rfl⟩
  rw [c.2.2.1]
  decide

/-- Witness for C7 amended: the amended rounding discipline evaluated at the
counterexample item. -/
theorem C7_rounding_amended_witness :
    calculate_refund [⟨313/5000, 1⟩] =
      round2 ((([⟨313/5000, 1⟩] : List RefundItem).map lineTotal).sum +
        round2 ((([⟨313/5000, 1⟩] : List RefundItem).map lineTotal).sum
          * TAX_RATE)) :=
  C7_rounding_amended.1 [⟨313/5000, 1⟩] (by simp)
